import Mathlib

/-!
Verification of the SmolDocling document-processing pipeline (src/main.py).

Modelling conventions of this development:
* Python strings are modelled as `List Char`; raw bytes as `List Nat`.
* External collaborators (the HTTP stack, the pdf2image rasterizer, the PIL
  image decoder, the MLX inference engine and the docling_core assembler and
  exporters) are modelled as explicit function parameters or outcome values;
  everything else is a direct translation of the code in src/main.py.
* Fallible Python code is modelled with `Except`; a raised exception is the
  `.error` case.
-/

/-! ## urllib.parse scheme extraction (used at src/main.py line 24)

CPython's `urlsplit` recognises a scheme when the text before the first `:`
starts with an ASCII letter and consists of ASCII letters, digits, `+`, `-`
and `.`; the scheme is returned lower-cased, and is the empty string
otherwise. -/

def isSchemeChar (c : Char) : Bool :=
  c.isAlpha || c.isDigit || c == '+' || c == '-' || c == '.'

def findColon : List Char → Option Nat
  | [] => none
  | c :: cs => if c == ':' then some 0 else Option.map (fun n => n + 1) (findColon cs)

def urlparseScheme (url : List Char) : List Char :=
  match findColon url with
  | none => []
  | some i =>
    match url with
    | [] => []
    | c0 :: _ =>
      if 0 < i ∧ c0.isAlpha = true ∧ (url.take i).all isSchemeChar = true then
        (url.take i).map Char.toLower
      else []

/-- Input-origin classification, src/main.py line 24:
`if urlparse(input_path).scheme != "":  # it is a URL`. -/
inductive InputOrigin
  | remote
  | localFile
  deriving DecidableEq

def classify_input (input_path : List Char) : InputOrigin :=
  if urlparseScheme input_path ≠ [] then .remote else .localFile

/-! ## Remote fetch (src/main.py lines 25-27)

`requests.get(input_path, stream=True, timeout=10)` followed by
`response.raise_for_status()`.  `raise_for_status` raises `HTTPError`
exactly for client-error (4xx) and server-error (5xx) status codes; with a
`timeout` argument set, the request raises `Timeout` when it exceeds it. -/

structure HTTPResponse where
  statusCode : Nat
  body : List Nat
  deriving DecidableEq

inductive NetOutcome
  | response (resp : HTTPResponse)
  | timedOut
  deriving DecidableEq

inductive LoadError
  | httpError (status : Nat)
  | timeoutError
  deriving DecidableEq

structure FetchRequest where
  url : List Char
  stream : Bool
  timeout : Nat
  deriving DecidableEq

/-- The constant arguments of the `requests.get` call at src/main.py line 25. -/
def get_request (url : List Char) : FetchRequest :=
  ⟨url, true, 10⟩

/-- `requests.Response.raise_for_status`: error on 4xx and 5xx only. -/
def raise_for_status (statusCode : Nat) : Except LoadError Unit :=
  if 400 ≤ statusCode ∧ statusCode < 500 then .error (.httpError statusCode)
  else if 500 ≤ statusCode ∧ statusCode < 600 then .error (.httpError statusCode)
  else .ok ()

/-- The fetch step of `load_input_resource`, src/main.py lines 25-27. -/
def fetch_remote (url : List Char) (net : NetOutcome) : Except LoadError HTTPResponse :=
  match net with
  | .timedOut => .error .timeoutError
  | .response resp =>
    match raise_for_status resp.statusCode with
    | .error e => .error e
    | .ok _ => .ok resp

/-! ## pathlib suffix (src/main.py line 42: `file_path.suffix.lower() == ".pdf"`) -/

def splitOnChar (sep : Char) : List Char → List (List Char)
  | [] => [[]]
  | c :: cs =>
    let rest := splitOnChar sep cs
    if c == sep then [] :: rest
    else
      match rest with
      | [] => [[c]]
      | r :: rs => (c :: r) :: rs

/-- `pathlib.PurePath.name`: the last non-empty, non-`.` path component. -/
def pathName (path : List Char) : List Char :=
  ((splitOnChar '/' path).filter (fun comp => !(comp == []) && !(comp == ['.']))).getLastD []

/-- Index of the last `.` in a list of characters (Python `str.rfind('.')`). -/
def rfindDot : List Char → Option Nat
  | [] => none
  | c :: cs =>
    match rfindDot cs with
    | some j => some (j + 1)
    | none => if c == '.' then some 0 else none

/-- `pathlib.PurePath.suffix`: the extension of the final component,
including the dot; empty when the final component has no internal dot. -/
def pathSuffix (path : List Char) : List Char :=
  let name := pathName path
  match rfindDot name with
  | none => []
  | some i => if 0 < i ∧ i < name.length - 1 then name.drop i else []

/-! ## load_input_resource (src/main.py lines 20-49) -/

/-- First four bytes of a PDF: the literal `b"%PDF"`. -/
def pdfMagic : List Nat := [0x25, 0x50, 0x44, 0x46]

/-- External decoders used by `load_input_resource`.  `convert_from_path`
and `open_image_path` read the file found at the local path, so they are
modelled as functions of that file's bytes; this makes explicit which
branch of the loader depends on the content and which on the name. -/
structure LoaderEnv (Img : Type) where
  convert_from_bytes : List Nat → List Img
  convert_from_path : List Nat → List Img
  open_image_bytes : List Nat → Img
  open_image_path : List Nat → Img

/-- `load_input_resource`, src/main.py lines 20-49.  `net` is the outcome
the network produces for the GET of `input_path` (consulted only in the URL
branch); `fileBytes` is the content of the local file at `input_path`
(consulted only in the local branch). -/
def load_input_resource {Img : Type} (env : LoaderEnv Img) (input_path : List Char)
    (net : NetOutcome) (fileBytes : List Nat) : Except LoadError (List Img) :=
  if urlparseScheme input_path ≠ [] then
    match fetch_remote input_path net with
    | .error e => .error e
    | .ok resp =>
      if resp.body.take 4 = pdfMagic then
        .ok (env.convert_from_bytes resp.body)
      else
        .ok [env.open_image_bytes resp.body]
  else
    if (pathSuffix input_path).map Char.toLower = ".pdf".data then
      .ok (env.convert_from_path fileBytes)
    else
      .ok [env.open_image_path fileBytes]

/-! ## Concrete sample values used by witnesses and counterexamples -/

def envN : LoaderEnv Nat :=
  ⟨fun b => [1000 + b.length], fun b => [2000 + b.length],
   fun b => 3000 + b.length, fun b => 4000 + b.length⟩

/-- `%PDF-1` as bytes: the start of a well-formed PDF file. -/
def pdfHeaderBytes : List Nat := [0x25, 0x50, 0x44, 0x46, 0x2D, 0x31]

/-! ## C8 -/

/-- C8: an input reference is classified as a remote URL exactly when urllib
scheme parsing yields a non-empty scheme, and as a local filesystem path
exactly when the parsed scheme is empty. -/
theorem c8_scheme_classification (input_path : List Char) :
    (classify_input input_path = .remote ↔ urlparseScheme input_path ≠ []) ∧
    (classify_input input_path = .localFile ↔ urlparseScheme input_path = []) := by
  unfold classify_input
  by_cases h : urlparseScheme input_path = [] <;> simp [h]

/-! ## C1 -/

/-- C1 counterexample: a local file named `report.png` whose bytes begin
with `%PDF` is nevertheless opened as a single raster image (the local
branch of `load_input_resource` dispatches on the filename extension and
never inspects the content), contradicting the claim that detection is
signature-based for every input reference. -/
theorem c1_counterexample :
    pdfHeaderBytes.take 4 = pdfMagic ∧
    load_input_resource envN "report.png".data (.response ⟨200, []⟩) pdfHeaderBytes
      = .ok [envN.open_image_path pdfHeaderBytes] ∧
    envN.open_image_path pdfHeaderBytes = 4006 := by
  refine ⟨by decide, rfl, by decide⟩

/-- C1 (amended): for remote references (non-empty URL scheme) content-type
detection is signature-based — first four fetched bytes equal to `%PDF`
selects the multi-page PDF path, anything else the single-image path,
regardless of the URL's name; for local references detection is
extension-based — a `.pdf` suffix (case-insensitive) selects the PDF
rasterizer and any other suffix the single-image path, regardless of the
file's content. -/
theorem c1_amended {Img : Type} (env : LoaderEnv Img) (url path : List Char)
    (resp : HTTPResponse) (net : NetOutcome) (bytesU bytesP : List Nat)
    (hu : urlparseScheme url ≠ [])
    (hs : ¬(400 ≤ resp.statusCode ∧ resp.statusCode < 600))
    (hp : urlparseScheme path = []) :
    load_input_resource env url (.response resp) bytesU
      = .ok (if resp.body.take 4 = pdfMagic then env.convert_from_bytes resp.body
             else [env.open_image_bytes resp.body]) ∧
    load_input_resource env path net bytesP
      = .ok (if (pathSuffix path).map Char.toLower = ".pdf".data
             then env.convert_from_path bytesP
             else [env.open_image_path bytesP]) := by
  constructor
  · have hok : raise_for_status resp.statusCode = .ok () := by
      unfold raise_for_status
      split_ifs with h1 h2
      · exact absurd ⟨h1.1, by omega⟩ hs
      · exact absurd ⟨by omega, by omega⟩ hs
      · rfl
    unfold load_input_resource
    rw [if_pos hu]
    simp only [fetch_remote, hok]
    split_ifs with hb <;> simp [hb]
  · unfold load_input_resource
    rw [if_neg (by simp [hp])]
    split_ifs with hsfx <;> simp [hsfx]

/-- Witness for `c1_amended`: a remote reference whose body does not start
with `%PDF` is loaded as a single image even though nothing about the name
says so, and a local `scan.PDF` is sent to the PDF rasterizer purely by
extension (case-folded). -/
theorem c1_amended_witness :
    load_input_resource envN "http://host/doc.pdf".data (.response ⟨200, [1, 2, 3]⟩) [7]
      = .ok [envN.open_image_bytes [1, 2, 3]] ∧
    load_input_resource envN "scan.PDF".data .timedOut [9]
      = .ok (envN.convert_from_path [9]) := by
  have h := c1_amended envN "http://host/doc.pdf".data "scan.PDF".data
    ⟨200, [1, 2, 3]⟩ .timedOut [7] [9] (by decide) (by decide) (by decide)
  exact ⟨h.1.trans rfl, h.2.trans rfl⟩

/-! ## The per-page streaming generation loop (src/main.py lines 112-136)

The engine (`mlx_vlm.utils.stream_generate`) is modelled per page as the
list of token texts it would produce; `max_tokens` caps how many tokens it
yields.  The driving loop (lines 128-133) appends each token text to the
page accumulator and breaks as soon as the *current token's text* contains
the closing doctag. -/

def doctagClose : List Char := "</doctag>".data

def isPrefixOfSeq : List Char → List Char → Bool
  | [], _ => true
  | _ :: _, [] => false
  | p :: ps, c :: cs => p == c && isPrefixOfSeq ps cs

/-- Python's `pat in s` substring test on character lists. -/
def containsSeq (pat : List Char) : List Char → Bool
  | [] => isPrefixOfSeq pat []
  | c :: cs => isPrefixOfSeq pat (c :: cs) || containsSeq pat cs

/-- `stream_generate(model, processor, prompt, [image], max_tokens=4096, ...)`:
the engine's token stream, capped at `max_tokens` tokens. -/
def stream_generate (engineTokens : List (List Char)) (max_tokens : Nat) :
    List (List Char) :=
  engineTokens.take max_tokens

/-- The token loop body of src/main.py lines 128-133:
`output += token.text; if "</doctag>" in token.text: break`. -/
def accumulate_page : List (List Char) → List Char → List Char
  | [], output => output
  | t :: rest, output =>
    if containsSeq doctagClose t then output ++ t
    else accumulate_page rest (output ++ t)

/-- One page's generated output (src/main.py lines 125-133). -/
def process_page (engineTokens : List (List Char)) : List Char :=
  accumulate_page (stream_generate engineTokens 4096) []

/-- Concatenation of a list of lists. -/
def joinAll {α : Type} : List (List α) → List α
  | [] => []
  | l :: ls => l ++ joinAll ls

/-- The prefix of a token stream up to and including the first token whose
text contains the closing doctag (the whole stream when no token does). -/
def takeThroughMarker : List (List Char) → List (List Char)
  | [] => []
  | t :: rest =>
    if containsSeq doctagClose t then [t]
    else t :: takeThroughMarker rest

theorem accumulate_page_eq (toks : List (List Char)) (acc : List Char) :
    accumulate_page toks acc = acc ++ joinAll (takeThroughMarker toks) := by
  induction toks generalizing acc with
  | nil => simp [accumulate_page, takeThroughMarker, joinAll]
  | cons t rest ih =>
    cases h : containsSeq doctagClose t with
    | true => simp [accumulate_page, takeThroughMarker, joinAll, h]
    | false =>
      simp only [accumulate_page, takeThroughMarker, h, if_neg Bool.false_ne_true,
        joinAll, Bool.false_eq_true]
      rw [ih]
      simp [List.append_assoc]

theorem takeThroughMarker_length (toks : List (List Char)) :
    (takeThroughMarker toks).length ≤ toks.length := by
  induction toks with
  | nil => simp [takeThroughMarker]
  | cons t rest ih =>
    cases h : containsSeq doctagClose t <;>
      simp [takeThroughMarker, h] <;> omega

theorem takeThroughMarker_isPrefix (toks : List (List Char)) :
    ∃ restTokens, toks = takeThroughMarker toks ++ restTokens := by
  induction toks with
  | nil => exact ⟨[], rfl⟩
  | cons t rest ih =>
    cases h : containsSeq doctagClose t with
    | true => exact ⟨rest, by simp [takeThroughMarker, h]⟩
    | false =>
      obtain ⟨r, hr⟩ := ih
      exact ⟨r, by simp [takeThroughMarker, h]; exact hr⟩

theorem takeThroughMarker_no_marker (toks : List (List Char))
    (h : ∀ t ∈ toks, containsSeq doctagClose t = false) :
    takeThroughMarker toks = toks := by
  induction toks with
  | nil => rfl
  | cons t rest ih =>
    have ht := h t (by simp)
    simp [takeThroughMarker, ht, ih (fun u hu => h u (by simp [hu]))]

/-! ## The page-by-page driving loop (src/main.py lines 117-139) -/

structure LoopState (Img : Type) where
  all_outputs : List (List Char)
  all_images : List Img
  processing_log : String

/-- The log lines written at src/main.py lines 122-123. -/
def pageHeader (n total : Nat) : String :=
  "Processing page " ++ toString n ++ "/" ++ toString total ++ "...\n\nDocTags:\n\n"

/-- The `for i, image in enumerate(images)` loop of src/main.py lines
121-136: per iteration the page image is appended to `all_images`, the
generated page output to `all_outputs`, and the log is extended. -/
def page_loop {Img : Type} (engine : Img → List (List Char)) (total : Nat) :
    List Img → Nat → LoopState Img → LoopState Img
  | [], _, s => s
  | image :: rest, i, s =>
    page_loop engine total rest (i + 1)
      ⟨s.all_outputs ++ [process_page (engine image)],
       s.all_images ++ [image],
       s.processing_log ++ pageHeader (i + 1) total
         ++ String.mk (process_page (engine image)) ++ "\n\n"⟩

def run_pages {Img : Type} (engine : Img → List (List Char)) (images : List Img) :
    LoopState Img :=
  page_loop engine images.length images 0 ⟨[], [], ""⟩

theorem page_loop_spec {Img : Type} (engine : Img → List (List Char)) (total : Nat)
    (images : List Img) : ∀ (i : Nat) (s : LoopState Img),
    (page_loop engine total images i s).all_outputs
        = s.all_outputs ++ images.map (fun img => process_page (engine img)) ∧
    (page_loop engine total images i s).all_images = s.all_images ++ images := by
  induction images with
  | nil => intro i s; simp [page_loop]
  | cons image rest ih =>
    intro i s
    have h := ih (i + 1)
      ⟨s.all_outputs ++ [process_page (engine image)],
       s.all_images ++ [image],
       s.processing_log ++ pageHeader (i + 1) total
         ++ String.mk (process_page (engine image)) ++ "\n\n"⟩
    constructor
    · rw [page_loop, h.1]
      simp
    · rw [page_loop, h.2]
      simp

theorem run_pages_outputs {Img : Type} (engine : Img → List (List Char))
    (images : List Img) :
    (run_pages engine images).all_outputs
      = images.map (fun img => process_page (engine img)) := by
  have h := page_loop_spec engine images.length images 0 ⟨[], [], ""⟩
  simpa [run_pages] using h.1

theorem run_pages_images {Img : Type} (engine : Img → List (List Char))
    (images : List Img) :
    (run_pages engine images).all_images = images := by
  have h := page_loop_spec engine images.length images 0 ⟨[], [], ""⟩
  simpa [run_pages] using h.2

/-! ## C2 -/

/-- C2 counterexample: when the closing doctag is split across two engine
tokens, the accumulator contains the terminator after the second token, yet
the loop does not stop there: the condition at src/main.py line 132 tests
only the current token's text, so a further token is consumed and appended.
-/
theorem c2_counterexample :
    containsSeq doctagClose ("</doc".data ++ "tag>".data) = true ∧
    containsSeq doctagClose "tag>".data = false ∧
    process_page ["</doc".data, "tag>".data, "X".data] = "</doctag>X".data := by
  exact ⟨by decide, by decide, by decide⟩

/-- C2 (amended): the per-page loop stops consuming tokens as soon as the
*current token's text* contains the closing doctag (hence, in particular,
whenever a single token completes the terminator); at most 4096 tokens are
consumed per page (`max_tokens=4096` caps the engine stream); and the
page's output is the verbatim concatenation (terminator included) of the
consumed prefix of the token stream. -/
theorem c2_amended (engineTokens : List (List Char)) :
    process_page engineTokens
      = joinAll (takeThroughMarker (stream_generate engineTokens 4096)) ∧
    (takeThroughMarker (stream_generate engineTokens 4096)).length ≤ 4096 ∧
    (∃ restTokens, stream_generate engineTokens 4096
        = takeThroughMarker (stream_generate engineTokens 4096) ++ restTokens) := by
  refine ⟨by simpa using accumulate_page_eq (stream_generate engineTokens 4096) [], ?_, ?_⟩
  · calc (takeThroughMarker (stream_generate engineTokens 4096)).length
        ≤ (stream_generate engineTokens 4096).length := takeThroughMarker_length _
      _ ≤ 4096 := by simp [stream_generate]
  · exact takeThroughMarker_isPrefix _

/-! ## Assembly (src/main.py lines 138-141)

`DocTagsDocument.from_doctags_and_image_pairs` and
`DoclingDocument.load_from_doctags` live in docling_core, outside src/,
so the parts of the claims that concern them are modelled from the spec. -/

/-- Modelled from the spec: §3's count-match invariant, checked by the
Document Assembler (docling_core, external to src/): "The number of
PageImage entries ... equals the number of TaggedPageOutput entries
consumed to build it; a mismatch is a fatal construction error". -/
def from_doctags_pairs_check {Img : Type} (all_outputs : List (List Char))
    (all_images : List Img) : Bool :=
  all_outputs.length == all_images.length

/-- Modelled from the spec: §4.3's Document Assembler (docling_core's
`load_from_doctags`, external to src/) parses each page's tagged text into
a forest of elements and "concatenates all per-page forests, in page order,
into the tree's top-level sequence". -/
def assemble_elements {Elem : Type} (parse_page : List Char → List Elem)
    (all_outputs : List (List Char)) : List Elem :=
  joinAll (all_outputs.map parse_page)

theorem joinAll_eq_foldr {α : Type} (ls : List (List α)) :
    joinAll ls = ls.foldr (fun l r => l ++ r) [] := by
  induction ls with
  | nil => rfl
  | cons l ls ih => simp [joinAll, ih]

/-! ## C5 -/

/-- C5: the driving loop hands pages to the engine and collects outputs in
ascending page order — the final `all_images` is exactly the loader's page
list and the i-th entry of `all_outputs` is the output generated for the
i-th page; consequently the assembled element sequence is the concatenation
of each page's parsed elements in ascending page-index order. -/
theorem c5_page_order {Img Elem : Type} (engine : Img → List (List Char))
    (images : List Img) (parse_page : List Char → List Elem) :
    (run_pages engine images).all_images = images ∧
    (run_pages engine images).all_outputs
      = images.map (fun img => process_page (engine img)) ∧
    (∀ i : Nat, (run_pages engine images).all_outputs[i]?
      = (images[i]?).map (fun img => process_page (engine img))) ∧
    assemble_elements parse_page (run_pages engine images).all_outputs
      = joinAll (images.map (fun img => parse_page (process_page (engine img)))) := by
  refine ⟨run_pages_images engine images, run_pages_outputs engine images, ?_, ?_⟩
  · intro i
    rw [run_pages_outputs engine images, List.getElem?_map]
  · rw [run_pages_outputs engine images]
    unfold assemble_elements
    rw [List.map_map]
    rfl

/-! ## C6 -/

/-- C6: per iteration the loop appends exactly one output and one image, so
outputs and images grow in lockstep from any starting state; at assembly
time their counts coincide, and the assembler's count-mismatch check is
satisfied. -/
theorem c6_lockstep {Img : Type} (engine : Img → List (List Char))
    (images : List Img) (i total : Nat) (s : LoopState Img) :
    (page_loop engine total images i s).all_outputs.length
        = s.all_outputs.length + images.length ∧
    (page_loop engine total images i s).all_images.length
        = s.all_images.length + images.length ∧
    (run_pages engine images).all_outputs.length
        = (run_pages engine images).all_images.length ∧
    from_doctags_pairs_check (run_pages engine images).all_outputs
        (run_pages engine images).all_images = true := by
  have h := page_loop_spec engine total images i s
  have houts := run_pages_outputs engine images
  have himgs := run_pages_images engine images
  refine ⟨by rw [h.1]; simp, by rw [h.2]; simp, ?_, ?_⟩
  · rw [houts, himgs]; simp
  · unfold from_doctags_pairs_check
    rw [houts, himgs]
    simp

/-! ## C4 -/

/-- C4: a page whose engine stream never contains the terminator within the
4096-token bound still yields an output — the concatenation of the whole
capped stream — which is appended for that page like any other; every other
page (before or after) is still processed normally, and no page is
generated more than once (each output is a single pass over its page's
capped stream). -/
theorem c4_lenient_degrade {Img : Type} (engine : Img → List (List Char))
    (images : List Img) (i : Nat) (img : Img)
    (hi : images[i]? = some img)
    (hnoterm : ∀ t ∈ (engine img).take 4096, containsSeq doctagClose t = false) :
    (run_pages engine images).all_outputs.length = images.length ∧
    (run_pages engine images).all_outputs[i]? = some (joinAll ((engine img).take 4096)) ∧
    (∀ j : Nat, (run_pages engine images).all_outputs[j]?
      = (images[j]?).map (fun im => process_page (engine im))) := by
  have houts := run_pages_outputs engine images
  refine ⟨by rw [houts]; simp, ?_, ?_⟩
  · rw [houts, List.getElem?_map, hi]
    have : process_page (engine img) = joinAll ((engine img).take 4096) := by
      unfold process_page stream_generate
      rw [accumulate_page_eq, takeThroughMarker_no_marker _ hnoterm]
      simp
    simp [this]
  · intro j
    rw [houts, List.getElem?_map]

def engW : Nat → List (List Char) := fun n =>
  if n = 0 then ["<a>".data, "<b>".data] else ["<c></doctag>".data, "<d>".data]

/-- Witness for `c4_lenient_degrade`: a two-page run whose first page never
reaches the terminator still produces two outputs, with the first capped
page present and the second page processed normally. -/
theorem c4_witness :
    (run_pages engW [0, 1]).all_outputs.length = 2 ∧
    (run_pages engW [0, 1]).all_outputs[0]? = some (joinAll ((engW 0).take 4096)) ∧
    (run_pages engW [0, 1]).all_outputs[1]?
      = ([0, 1][1]?).map (fun im => process_page (engW im)) := by
  have h := c4_lenient_degrade engW [0, 1] 0 0 (by decide) (by decide)
  exact ⟨by simpa using h.1, h.2.1, h.2.2 1⟩

/-! ## Export dispatch (src/main.py lines 143-156)

The three exporters themselves (`export_to_markdown`, `save_as_html`,
`export_to_dict`/`json.dumps`) belong to docling_core, outside src/; the
dispatch over the selected format is the repository's own code.  In the
source the unrecognized-format branch assigns the sentinel string
`"Invalid export format selected"` to `result` and carries on — no
exception is raised. -/

def select_export {Doc : Type} (export_format : String)
    (export_to_markdown export_to_html export_to_json : Doc → String)
    (doc : Doc) : String :=
  if export_format = "Markdown" then export_to_markdown doc
  else if export_format = "HTML" then export_to_html doc
  else if export_format = "JSON" then export_to_json doc
  else "Invalid export format selected"

inductive ExportError
  | unsupportedFormat
  deriving DecidableEq

/-- Modelled from the spec: the export contract of §4.4/§6 — one total
function per recognized target, and `ExportError(UnsupportedFormat)` for
any other target value.  Used only to compare the source's dispatch
against the spec's words. -/
def select_export_specContract {Doc : Type} (export_format : String)
    (export_to_markdown export_to_html export_to_json : Doc → String)
    (doc : Doc) : Except ExportError String :=
  if export_format = "Markdown" then .ok (export_to_markdown doc)
  else if export_format = "HTML" then .ok (export_to_html doc)
  else if export_format = "JSON" then .ok (export_to_json doc)
  else .error .unsupportedFormat

def mdW : Nat → String := fun _ => "# markdown payload"

def htmlW : Nat → String := fun _ => "<html>payload</html>"

def jsonW : Nat → String := fun _ => "\x7b\x7d"

/-! ## C3 -/

/-- C3 counterexample: for the export target `"XML"` the source's dispatch
does not fail — it yields the sentinel string
`"Invalid export format selected"` as the ordinary result, where the spec
contract demands an `ExportError(UnsupportedFormat)` failure. -/
theorem c3_counterexample :
    select_export "XML" mdW htmlW jsonW 0 = "Invalid export format selected" ∧
    select_export_specContract "XML" mdW htmlW jsonW 0 = .error .unsupportedFormat := by
  exact ⟨rfl, rfl⟩

/-- C3 (amended): for every export-target value other than `Markdown`,
`HTML` and `JSON`, the export step yields the sentinel result string
`"Invalid export format selected"` (no exception; the built document is
neither mutated nor discarded — the same `doc` value still feeds the three
recognized targets, which are total over it). -/
theorem c3_amended {Doc : Type} (export_format : String)
    (export_to_markdown export_to_html export_to_json : Doc → String) (doc : Doc)
    (h : export_format ≠ "Markdown" ∧ export_format ≠ "HTML" ∧ export_format ≠ "JSON") :
    select_export export_format export_to_markdown export_to_html export_to_json doc
      = "Invalid export format selected" ∧
    select_export "Markdown" export_to_markdown export_to_html export_to_json doc
      = export_to_markdown doc ∧
    select_export "HTML" export_to_markdown export_to_html export_to_json doc
      = export_to_html doc ∧
    select_export "JSON" export_to_markdown export_to_html export_to_json doc
      = export_to_json doc := by
  obtain ⟨h1, h2, h3⟩ := h
  refine ⟨?_, by simp [select_export], by simp [select_export], by simp [select_export]⟩
  simp [select_export, h1, h2, h3]

/-- Witness for `c3_amended` at the target `"XML"`. -/
theorem c3_amended_witness :
    select_export "XML" mdW htmlW jsonW 7 = "Invalid export format selected" ∧
    select_export "Markdown" mdW htmlW jsonW 7 = mdW 7 ∧
    select_export "HTML" mdW htmlW jsonW 7 = htmlW 7 ∧
    select_export "JSON" mdW htmlW jsonW 7 = jsonW 7 :=
  c3_amended "XML" mdW htmlW jsonW 7 (by refine ⟨by decide, by decide, by decide⟩)

/-! ## C7 -/

/-- C7 counterexample: `raise_for_status` raises only on 4xx/5xx, so a
final non-2xx status such as `304 Not Modified` does *not* make the load
fail — the fetch step succeeds and the loader proceeds with the response
body, contradicting "fails on a non-success (non-2xx) HTTP status". -/
theorem c7_counterexample :
    fetch_remote "http://example.com/a".data (.response ⟨304, [1]⟩) = .ok ⟨304, [1]⟩ ∧
    ¬(200 ≤ 304 ∧ 304 < 300) := by
  exact ⟨rfl, by decide⟩

/-- C7 (amended): the remote fetch is a streaming GET with the fixed
bounded timeout of 10 seconds; it fails on timeout, and on an HTTP
response it fails exactly when the final status code is a client error
(4xx) or server error (5xx) — the behaviour of
`requests.Response.raise_for_status` — not on every non-2xx status. -/
theorem c7_amended (url : List Char) (resp : HTTPResponse) :
    (get_request url).stream = true ∧
    (get_request url).timeout = 10 ∧
    fetch_remote url .timedOut = .error .timeoutError ∧
    fetch_remote url (.response resp)
      = (if 400 ≤ resp.statusCode ∧ resp.statusCode < 600
         then .error (.httpError resp.statusCode) else .ok resp) := by
  refine ⟨rfl, rfl, rfl, ?_⟩
  simp only [fetch_remote, raise_for_status]
  split_ifs with h1 h2 h3 h4 h5 <;> first | rfl | omega

/-! ## prepare_download (src/main.py lines 185-200)

The handler picks the suffix from the chosen format, creates one temporary
file with that suffix, writes the UTF-8 encoding of the result text into
it, and points both download buttons at that single file. -/

/-- UTF-8 encoding of one code point. -/
def utf8EncodeChar (c : Char) : List Nat :=
  let n := c.toNat
  if n < 0x80 then [n]
  else if n < 0x800 then
    [0xC0 + n / 0x40, 0x80 + n % 0x40]
  else if n < 0x10000 then
    [0xE0 + n / 0x1000, 0x80 + (n / 0x40) % 0x40, 0x80 + n % 0x40]
  else
    [0xF0 + n / 0x40000, 0x80 + (n / 0x1000) % 0x40, 0x80 + (n / 0x40) % 0x40,
     0x80 + n % 0x40]

/-- Python `result.encode("utf-8")`. -/
def utf8Encode (s : List Char) : List Nat :=
  joinAll (s.map utf8EncodeChar)

structure DownloadArtifact where
  suffix : String
  contents : List Nat
  deriving DecidableEq

/-- The suffix chosen at src/main.py lines 187-194. -/
def download_ext (export_format : String) : String :=
  if export_format = "Markdown" then ".md"
  else if export_format = "HTML" then ".html"
  else if export_format = "JSON" then ".json"
  else ".txt"

/-- `prepare_download`, src/main.py lines 185-198: the single temporary
file written by the handler. -/
def prepare_download (result : List Char) (export_format : String) : DownloadArtifact :=
  ⟨download_ext export_format, utf8Encode result⟩

/-- src/main.py line 200: both download-button updates receive the name of
the same single file. -/
def prepare_download_updates (result : List Char) (export_format : String) :
    DownloadArtifact × DownloadArtifact :=
  (prepare_download result export_format, prepare_download result export_format)

/-! ## C9 -/

/-- C9: for each of the three offered formats the downloadable artifact is
a single file whose extension matches the format (`.md`, `.html`, `.json`)
and whose contents are the UTF-8 encoding of the exported text; both
download buttons point at that one file, so no further state is created. -/
theorem c9_download_artifact (result : List Char) :
    (prepare_download result "Markdown").suffix = ".md" ∧
    (prepare_download result "HTML").suffix = ".html" ∧
    (prepare_download result "JSON").suffix = ".json" ∧
    (prepare_download result "Markdown").contents = utf8Encode result ∧
    (prepare_download result "HTML").contents = utf8Encode result ∧
    (prepare_download result "JSON").contents = utf8Encode result ∧
    (prepare_download_updates result "Markdown").1
      = (prepare_download_updates result "Markdown").2 := by
  exact ⟨rfl, rfl, rfl, rfl, rfl, rfl, rfl⟩

/-! ## process_document (src/main.py lines 71-164)

The whole body runs inside `try:`; the `except Exception` handler returns
`(f"Error processing document: {str(e)}\n\nDetails:\n{error_details}",
None, error_details)` where `error_details = traceback.format_exc()`. -/

/-- A raised Python exception: its `str(e)` and its formatted traceback. -/
structure PyException where
  msg : String
  traceback : String
  deriving DecidableEq

/-- The external collaborators `process_document` calls, each as the
outcome it produces for this run: model loading (line 75), resource
loading (line 108), the engine's per-page token stream (lines 128-130),
docling assembly (lines 139-141), and the three docling exporters (lines
144-154). -/
structure ExternalSteps (Img Doc : Type) where
  load_model : Except PyException Unit
  load_resource : List Char → Except PyException (List Img)
  engine : Img → List (List Char)
  from_doctags : List (List Char) → List Img → Except PyException Doc
  export_to_markdown : Doc → Except PyException String
  export_to_html : Doc → Except PyException String
  export_to_json : Doc → Except PyException String

/-- Python `str.strip()` whitespace. -/
def isPySpace (c : Char) : Bool :=
  c == ' ' || c == '\t' || c == '\n' || c == '\r' || c == '\x0b' || c == '\x0c'

def strip (s : List Char) : List Char :=
  ((s.dropWhile isPySpace).reverse.dropWhile isPySpace).reverse

/-- The `try:` body of `process_document`, src/main.py lines 73-159.
`file_obj` is the already-resolved temporary path of an uploaded file, if
any. -/
def process_document_body {Img Doc : Type} (steps : ExternalSteps Img Doc)
    (file_obj : Option (List Char)) (url_input : List Char) (export_format : String) :
    Except PyException (String × Option Img × Option String) := do
  let _ ← steps.load_model
  match (match file_obj with
         | some temp_path => some temp_path
         | none => if strip url_input ≠ [] then some (strip url_input) else none) with
  | none => return ("Please provide either a file upload or a URL", none, none)
  | some input_path => do
    let images ← steps.load_resource input_path
    if images.isEmpty then
      return ("No images could be extracted from the provided file or URL", none, none)
    let st := run_pages steps.engine images
    let doc ← steps.from_doctags st.all_outputs st.all_images
    let result ←
      if export_format = "Markdown" then steps.export_to_markdown doc
      else if export_format = "HTML" then steps.export_to_html doc
      else if export_format = "JSON" then steps.export_to_json doc
      else pure "Invalid export format selected"
    return (result, images.head?, some st.processing_log)

/-- `process_document`, src/main.py lines 71-164: the `try/except` wrapper
around the body. -/
def process_document {Img Doc : Type} (steps : ExternalSteps Img Doc)
    (file_obj : Option (List Char)) (url_input : List Char) (export_format : String) :
    String × Option Img × Option String :=
  match process_document_body steps file_obj url_input export_format with
  | .ok t => t
  | .error e =>
    ("Error processing document: " ++ e.msg ++ "\n\nDetails:\n" ++ e.traceback,
     none, some e.traceback)

def stepsFailW : ExternalSteps Nat Nat :=
  ⟨.error ⟨"boom", "Traceback: boom"⟩, fun _ => .ok [], fun _ => [],
   fun _ _ => .ok 0, fun _ => .ok "", fun _ => .ok "", fun _ => .ok ""⟩

/-! ## C10 -/

/-- C10 counterexample: on a caught exception `process_document` does not
leave both remaining components `None` — the third component of the
returned triple is the formatted traceback string (src/main.py line 164).
-/
theorem c10_counterexample :
    process_document stepsFailW (some "a.png".data) "".data "Markdown"
      = ("Error processing document: boom\n\nDetails:\nTraceback: boom",
         none, some "Traceback: boom") ∧
    (process_document stepsFailW (some "a.png".data) "".data "Markdown").2.2
      ≠ none := by
  have h1 : process_document stepsFailW (some "a.png".data) "".data "Markdown"
      = ("Error processing document: boom\n\nDetails:\nTraceback: boom",
         none, some "Traceback: boom") := rfl
  refine ⟨h1, ?_⟩
  rw [h1]
  simp

/-- C10 (amended): `process_document` propagates no exception: whatever the
external steps do, it returns a triple — the body's triple on success, and
on any raised exception the triple
`("Error processing document: <msg>\n\nDetails:\n<traceback>", None,
<traceback>)`, whose second component is `None` but whose third carries the
traceback; when neither a file nor a (non-blank) URL is supplied and model
loading succeeds, the triple is the please-provide message with both
remaining components `None`. -/
theorem c10_amended {Img Doc : Type} (steps : ExternalSteps Img Doc)
    (file_obj : Option (List Char)) (url_input : List Char) (export_format : String) :
    ((∃ t, process_document_body steps file_obj url_input export_format = .ok t ∧
           process_document steps file_obj url_input export_format = t) ∨
     (∃ e, process_document_body steps file_obj url_input export_format = .error e ∧
           process_document steps file_obj url_input export_format
             = ("Error processing document: " ++ e.msg ++ "\n\nDetails:\n" ++ e.traceback,
                none, some e.traceback))) ∧
    process_document
        ⟨.ok (), steps.load_resource, steps.engine, steps.from_doctags,
         steps.export_to_markdown, steps.export_to_html, steps.export_to_json⟩
        none [] export_format
      = ("Please provide either a file upload or a URL", none, none) := by
  constructor
  · cases h : process_document_body steps file_obj url_input export_format with
    | ok t => exact .inl ⟨t, rfl, by simp [process_document, h]⟩
    | error e => exact .inr ⟨e, rfl, by simp [process_document, h]⟩
  · rfl
